import Mathlib

/-!
Shallow embedding of the `netd` TCP connection server (package `netd`,
repository influx6/fractals) in Lean 4, together with proofs that settle a
fixed list of behavioural claims about it.

Modelling conventions:
* Go structs become Lean structures; Go `int`/`int64` become `Int`, durations
  become `Nat` milliseconds.
* A Go nil interface value is `Option.none`; calling a method on a nil
  interface is a panic, modelled where it matters by an `Option`-valued
  result (`none` = panic) or an explicit flag.
* Go value-receiver methods (`func (stat Stat) ...`) receive a copy of the
  receiver; `valueReceiverCall` below makes that calling convention explicit.
* The stateful accept loops are modelled per iteration: the body that runs
  after one successful `Accept`, from the handler invocation to the end of
  the iteration, is a pure function from the pre-state and the external
  outcomes (handler result, authenticator verdict) to the post-state and the
  observable effects of that iteration.
-/

/-- Go `netd.Credential`: a username/password pair (config.go). -/
structure Credential where
  Username : String
  Password : String
  deriving DecidableEq, Repr

/-- Go `netd.BaseInfo`: identity snapshot of one endpoint (config.go). -/
structure BaseInfo where
  Addr : String
  Port : Int
  ServerID : String
  Version : String
  GoVersion : String
  IP : String
  MaxPayload : Int
  deriving DecidableEq, Repr

/-- The zero value of `BaseInfo`, as produced by Go `var info BaseInfo`. -/
def zeroBaseInfo : BaseInfo :=
  { Addr := "", Port := 0, ServerID := "", Version := "", GoVersion := "",
    IP := "", MaxPayload := 0 }

/-- Go `netd.Config`, restricted to the fields the accept loops and the
authentication gate read (config.go).  The field name `ClientCrendentails`
keeps the spelling of the source. -/
structure Config where
  ClientCrendentails : List Credential
  ClusterCredentials : List Credential
  Authenticate : Bool
  MustAuthenticate : Bool
  UseTLS : Bool
  deriving Repr

/-- The shared loop body of `Config.MatchClientCredentials` and
`Config.MatchClusterCredentials`: first exact username/password match wins. -/
def matchCredentialList (cd : Credential) : List Credential → Bool
  | [] => false
  | user :: rest =>
    if cd.Username == user.Username && cd.Password == user.Password then true
    else matchCredentialList cd rest

/-- Go `Config.MatchClientCredentials` (config.go): exact-equality scan of the
static client credential list. -/
def Config.MatchClientCredentials (c : Config) (cd : Credential) : Bool :=
  matchCredentialList cd c.ClientCrendentails

/-- Go `Config.MatchClusterCredentials` (config.go): exact-equality scan of
the static cluster credential list. -/
def Config.MatchClusterCredentials (c : Config) (cd : Credential) : Bool :=
  matchCredentialList cd c.ClusterCredentials

/-- Go `netd.SearchableInfo` (con.go): a queryable slice of `BaseInfo`. -/
abbrev SearchableInfo := List BaseInfo

/-- The loop of Go `SearchableInfo.HasAddr` (con.go).  The Go source is

  var info BaseInfo
  for _, info = range s {
    if info.Addr == addr || info.Port == port { break }
  }
  return info, nil

The range variable is the single variable `info`, so each iteration first
assigns the current element to `info`, then tests the disjunction; on `break`
the current element is returned, and when the loop ends without a break,
`info` still holds the last element visited (or the zero value when the list
is empty). -/
def hasAddrLoop (info : BaseInfo) (addr : String) (port : Int) :
    List BaseInfo → BaseInfo
  | [] => info
  | i :: rest =>
    if i.Addr == addr || i.Port == port then i else hasAddrLoop i addr port rest

/-- Go `SearchableInfo.HasAddr` (con.go), error component omitted: the Go
function always returns a nil error. -/
def SearchableInfo.HasAddr (s : SearchableInfo) (addr : String) (port : Int) :
    BaseInfo :=
  hasAddrLoop zeroBaseInfo addr port s

/-- Go `netd.Stat` (stat.go): the traffic counters. -/
structure Stat where
  InMsg : Int
  OutMsg : Int
  OutBytes : Int
  InBytes : Int
  Requests : Int
  TotalClients : Int
  deriving DecidableEq, Repr

/-- The zero value of `Stat`. -/
def zeroStat : Stat :=
  { InMsg := 0, OutMsg := 0, OutBytes := 0, InBytes := 0, Requests := 0,
    TotalClients := 0 }

/-- Body of Go `Stat.IncrementWrites` (stat.go): the effect of
`atomic.AddInt64(&stat.OutBytes, int64(size))` on the method's receiver. -/
def Stat.IncrementWrites (stat : Stat) (size : Int) : Stat :=
  { stat with OutBytes := stat.OutBytes + size }

/-- Body of Go `Stat.IncrementReads` (stat.go). -/
def Stat.IncrementReads (stat : Stat) (size : Int) : Stat :=
  { stat with InBytes := stat.InBytes + size }

/-- Body of Go `Stat.IncrementInMsg` (stat.go). -/
def Stat.IncrementInMsg (stat : Stat) : Stat :=
  { stat with InMsg := stat.InMsg + 1 }

/-- Body of Go `Stat.IncrementOutMsg` (stat.go). -/
def Stat.IncrementOutMsg (stat : Stat) : Stat :=
  { stat with OutMsg := stat.OutMsg + 1 }

/-- Body of Go `Stat.IncrementRequest` (stat.go). -/
def Stat.IncrementRequest (stat : Stat) : Stat :=
  { stat with Requests := stat.Requests + 1 }

/-- Go calling convention for a method with a VALUE receiver
(`func (stat Stat) ...`): the receiver is copied on call, the body mutates
the copy, and the copy is discarded on return.  The first component is the
value the caller observes in its own variable after the call; the second is
the final value of the method's local copy. -/
def valueReceiverCall (body : Stat → Stat) (caller : Stat) : Stat × Stat :=
  (caller, body caller)

/-- Go `ACCEPT_MIN_SLEEP` (const.go), in milliseconds. -/
def ACCEPT_MIN_SLEEP : Nat := 10

/-- Go `ACCEPT_MAX_SLEEP` (const.go), in milliseconds. -/
def ACCEPT_MAX_SLEEP : Nat := 1000

/-- The sleep-time update in the temporary-accept-error branch of
`clientLoop`/`clusterLoop` (tcp.go):

  sleepTime *= 2
  if sleepTime > ACCEPT_MAX_SLEEP { sleepTime = ACCEPT_MIN_SLEEP }
-/
def nextSleepTime (sleepTime : Nat) : Nat :=
  let doubled := sleepTime * 2
  if ACCEPT_MAX_SLEEP < doubled then ACCEPT_MIN_SLEEP else doubled

/-- Duration slept on the `(k+1)`-th consecutive temporary accept error:
the loop starts with `sleepTime := ACCEPT_MIN_SLEEP`, sleeps for the current
`sleepTime`, then applies `nextSleepTime`; a successful accept resets to
`ACCEPT_MIN_SLEEP` (index 0 again). -/
def sleepOnError : Nat → Nat
  | 0 => ACCEPT_MIN_SLEEP
  | k + 1 => nextSleepTime (sleepOnError k)

/-- Go `netd.TCPConn` (tcp.go), restricted to the running flags and listener
handles that `ServeClients`/`ServeClusters`/`IsRunning`/`Close` touch.  A
listener is a `Nat` identifier; `none` means no listener bound. -/
structure TCPConn where
  runningClient : Bool
  runningCluster : Bool
  tcpClient : Option Nat
  tcpCluster : Option Nat
  deriving DecidableEq, Repr

/-- The state of a freshly constructed `TCPConn` (the `TCP` constructor,
tcp.go): both running flags false, no listeners bound. -/
def initialTCPConn : TCPConn :=
  { runningClient := false, runningCluster := false,
    tcpClient := none, tcpCluster := none }

/-- Go `TCPConn.IsRunning` (tcp.go). -/
def TCPConn.IsRunning (c : TCPConn) : Bool :=
  c.runningClient || c.runningCluster

/-- Result of one `ServeClients`/`ServeClusters` call: the post-state, the
returned error (`none` = Go nil), and whether `net.Listen` was invoked. -/
structure ServeResult where
  state : TCPConn
  returned : Option String
  boundListener : Bool
  deriving DecidableEq, Repr

/-- Go `TCPConn.ServeClients` (tcp.go): the `listen` argument is the outcome
of `net.Listen("tcp", addr)`.  The source checks `runningClient`, binds the
listener on success, spawns `clientLoop`, and returns; no statement in the
source assigns `true` to `runningClient`. -/
def TCPConn.ServeClients (c : TCPConn) (listen : Except String Nat) :
    ServeResult :=
  if c.runningClient then
    { state := c, returned := none, boundListener := false }
  else
    match listen with
    | .error e => { state := c, returned := some e, boundListener := true }
    | .ok l =>
      { state := { c with tcpClient := some l }, returned := none,
        boundListener := true }

/-- Go `TCPConn.ServeClusters` (tcp.go), symmetric to `ServeClients`. -/
def TCPConn.ServeClusters (c : TCPConn) (listen : Except String Nat) :
    ServeResult :=
  if c.runningCluster then
    { state := c, returned := none, boundListener := false }
  else
    match listen with
    | .error e => { state := c, returned := some e, boundListener := true }
    | .ok l =>
      { state := { c with tcpCluster := some l }, returned := none,
        boundListener := true }

/-- Observable effects of the TLS block of one accept-loop iteration
(tcp.go, `clientLoop`/`clusterLoop`).  The Go source declares
`var tlsPassed bool`, schedules via `time.AfterFunc` a callback that closes
the connection when `tlsPassed` is still false, arms a read deadline, and
performs the handshake; no statement in the loop ever assigns `true` to
`tlsPassed`, and only the handshake-failure branch clears the deadline. -/
structure TLSSectionResult where
  tlsPassedFinal : Bool
  deadlineCleared : Bool
  connClosedByLoop : Bool
  proceeded : Bool
  deriving DecidableEq, Repr

/-- The TLS block as a function of whether `tlsConn.Handshake()` returned
nil.  `proceeded` means control reached the `Connection` construction and
the handler invocation; `tlsPassedFinal` is the value of `tlsPassed` when
the block ends (and hence when the `AfterFunc` timer later fires). -/
def tlsSection (handshakeOK : Bool) : TLSSectionResult :=
  if handshakeOK then
    { tlsPassedFinal := false, deadlineCleared := false,
      connClosedByLoop := false, proceeded := true }
  else
    { tlsPassedFinal := false, deadlineCleared := true,
      connClosedByLoop := true, proceeded := false }

/-- The body of the `time.AfterFunc` callback: it force-closes the connection
exactly when `tlsPassed` is false at the moment the timer fires. -/
def timerCloses (tlsPassedAtFire : Bool) : Bool :=
  !tlsPassedAtFire

/-- A concrete (non-nil) `netd.Provider` value as the accept loops observe
it: an identifier, the `BaseInfo` it reports, and, when the provider also
implements the optional `ClientAuth` capability, the credentials it
returns (`creds = none` means the type assertion `provider.(ClientAuth)`
fails). -/
structure ProviderVal where
  pid : Nat
  info : BaseInfo
  creds : Option Credential
  deriving DecidableEq, Repr

/-- A registry slot: Go `[]Provider` entries are interface values, and the
loops can append a nil interface, so a slot is `Option ProviderVal` with
`none` standing for the nil interface. -/
abbrev Registry := List (Option ProviderVal)

/-- Observable effects of the post-accept part of one accept-loop iteration
(tcp.go): the two registries after the iteration, whether
`connection.Close()` ran in the handler-error branch, whether the provider
was sent a rejection and closed, whether the close-notify waiter goroutine
was spawned, whether the connect hooks for the class were invoked, and
whether the iteration hit a method call on a nil interface (a Go panic). -/
structure IterResult where
  clients : Registry
  clusters : Registry
  rawConnClosed : Bool
  providerClosed : Bool
  rejectionSent : Option String
  waiterInstalled : Bool
  connectHooksFired : Bool
  panics : Bool
  deriving DecidableEq, Repr

/-- The rejection message sent when a provider lacks the `ClientAuth`
capability under mandatory authentication (tcp.go). -/
def noAuthMsg : String :=
  "Error: Provider has no authentication. Authentication needed"

/-- The rejection message sent when authentication fails (tcp.go). -/
def authFailedMsg : String := "Error: Authentication failed"

/-- One iteration of `TCPConn.clientLoop` (tcp.go) from the handler call to
the end of the iteration.  `authVerdict` is `config.ClientAuth.Authenticate`
applied to the `ClientAuth` value extracted from the provider (`none` is the
nil interface passed through when the type assertion failed); `provider` is
the handler result and `herr` whether the handler also returned an error.
The source closes the connection on a handler error but has no `continue`
there, so control falls through to the authentication gate with the returned
(possibly nil) provider. -/
def clientLoopIteration (config : Config)
    (authVerdict : Option Credential → Bool)
    (clients clusters : Registry)
    (provider : Option ProviderVal) (herr : Bool) : IterResult :=
  let rawClosed := herr
  if config.Authenticate then
    match provider with
    | none =>
      if config.MustAuthenticate then
        { clients := clients, clusters := clusters, rawConnClosed := rawClosed,
          providerClosed := false, rejectionSent := none,
          waiterInstalled := false, connectHooksFired := false, panics := true }
      else if !(authVerdict none) then
        { clients := clients, clusters := clusters, rawConnClosed := rawClosed,
          providerClosed := false, rejectionSent := none,
          waiterInstalled := false, connectHooksFired := false, panics := true }
      else
        { clients := clients ++ [none], clusters := clusters,
          rawConnClosed := rawClosed, providerClosed := false,
          rejectionSent := none, waiterInstalled := true,
          connectHooksFired := true, panics := false }
    | some p =>
      match p.creds with
      | none =>
        if config.MustAuthenticate then
          { clients := clients, clusters := clusters,
            rawConnClosed := rawClosed, providerClosed := true,
            rejectionSent := some noAuthMsg, waiterInstalled := false,
            connectHooksFired := false, panics := false }
        else if !(authVerdict none) then
          { clients := clients, clusters := clusters,
            rawConnClosed := rawClosed, providerClosed := false,
            rejectionSent := none, waiterInstalled := false,
            connectHooksFired := false, panics := true }
        else
          { clients := clients ++ [some p], clusters := clusters,
            rawConnClosed := rawClosed, providerClosed := false,
            rejectionSent := none, waiterInstalled := true,
            connectHooksFired := true, panics := false }
      | some cred =>
        if !(authVerdict (some cred)) then
          if config.MatchClientCredentials cred then
            { clients := clients ++ [some p], clusters := clusters,
              rawConnClosed := rawClosed, providerClosed := false,
              rejectionSent := none, waiterInstalled := false,
              connectHooksFired := false, panics := false }
          else
            { clients := clients, clusters := clusters,
              rawConnClosed := rawClosed, providerClosed := true,
              rejectionSent := some authFailedMsg, waiterInstalled := false,
              connectHooksFired := false, panics := false }
        else
          { clients := clients ++ [some p], clusters := clusters,
            rawConnClosed := rawClosed, providerClosed := false,
            rejectionSent := none, waiterInstalled := true,
            connectHooksFired := true, panics := false }
  else
    { clients := clients ++ [provider], clusters := clusters,
      rawConnClosed := rawClosed, providerClosed := false,
      rejectionSent := none, waiterInstalled := true,
      connectHooksFired := true, panics := false }

/-- One iteration of `TCPConn.clusterLoop` (tcp.go), same structure as
`clientLoopIteration` with the cluster authenticator, the cluster static
credential list, and cluster hooks — except that the static-credential
fallback branch in the source is `c.clients = append(c.clients, provider)`:
it appends to the CLIENTS registry, not the clusters registry, and then
continues without firing hooks or installing a waiter. -/
def clusterLoopIteration (config : Config)
    (authVerdict : Option Credential → Bool)
    (clients clusters : Registry)
    (provider : Option ProviderVal) (herr : Bool) : IterResult :=
  let rawClosed := herr
  if config.Authenticate then
    match provider with
    | none =>
      if config.MustAuthenticate then
        { clients := clients, clusters := clusters, rawConnClosed := rawClosed,
          providerClosed := false, rejectionSent := none,
          waiterInstalled := false, connectHooksFired := false, panics := true }
      else if !(authVerdict none) then
        { clients := clients, clusters := clusters, rawConnClosed := rawClosed,
          providerClosed := false, rejectionSent := none,
          waiterInstalled := false, connectHooksFired := false, panics := true }
      else
        { clients := clients, clusters := clusters ++ [none],
          rawConnClosed := rawClosed, providerClosed := false,
          rejectionSent := none, waiterInstalled := true,
          connectHooksFired := true, panics := false }
    | some p =>
      match p.creds with
      | none =>
        if config.MustAuthenticate then
          { clients := clients, clusters := clusters,
            rawConnClosed := rawClosed, providerClosed := true,
            rejectionSent := some noAuthMsg, waiterInstalled := false,
            connectHooksFired := false, panics := false }
        else if !(authVerdict none) then
          { clients := clients, clusters := clusters,
            rawConnClosed := rawClosed, providerClosed := false,
            rejectionSent := none, waiterInstalled := false,
            connectHooksFired := false, panics := true }
        else
          { clients := clients, clusters := clusters ++ [some p],
            rawConnClosed := rawClosed, providerClosed := false,
            rejectionSent := none, waiterInstalled := true,
            connectHooksFired := true, panics := false }
      | some cred =>
        if !(authVerdict (some cred)) then
          if config.MatchClusterCredentials cred then
            { clients := clients ++ [some p], clusters := clusters,
              rawConnClosed := rawClosed, providerClosed := false,
              rejectionSent := none, waiterInstalled := false,
              connectHooksFired := false, panics := false }
          else
            { clients := clients, clusters := clusters,
              rawConnClosed := rawClosed, providerClosed := true,
              rejectionSent := some authFailedMsg, waiterInstalled := false,
              connectHooksFired := false, panics := false }
        else
          { clients := clients, clusters := clusters ++ [some p],
            rawConnClosed := rawClosed, providerClosed := false,
            rejectionSent := none, waiterInstalled := true,
            connectHooksFired := true, panics := false }
  else
    { clients := clients, clusters := clusters ++ [provider],
      rawConnClosed := rawClosed, providerClosed := false,
      rejectionSent := none, waiterInstalled := true,
      connectHooksFired := true, panics := false }

/-- Effects of a close-notify waiter goroutine on the shared state.
`panics` records a `sync.WaitGroup` counter underflow: Go
`WaitGroup.Done()` on a counter that is already zero panics, aborting the
goroutine (and the process) before any later statement runs. -/
structure WaiterResult where
  clients : Registry
  clusters : Registry
  disconnectHooksFired : Bool
  panics : Bool
  deriving DecidableEq, Repr

/-- The value of the `c.conWG` counter when any waiter runs: the source
declares `conWG sync.WaitGroup` (zero counter) and contains no call to
`conWG.Add` anywhere — its only uses are the two `conWG.Done()` calls in the
waiter goroutines — so the counter is still zero at every `Done()`. -/
def conWGCount : Nat := 0

/-- The waiter goroutine installed at client admission (tcp.go):

  go func() {
    <-provider.CloseNotify()
    c.conWG.Done()
    c.callClientDisconnects(provider)
  }()

Its body, run when the close-notify signal fires, first calls
`c.conWG.Done()`: on a zero counter (`conWG` in the source) this panics and
`callClientDisconnects` is never reached; on a positive counter it
decrements and the client disconnect hooks run.  Neither statement reads or
writes `c.clients` or `c.clusters` in either case. -/
def clientCloseWaiter (conWG : Nat) (clients clusters : Registry)
    (_provider : ProviderVal) : WaiterResult :=
  if conWG == 0 then
    { clients := clients, clusters := clusters,
      disconnectHooksFired := false, panics := true }
  else
    { clients := clients, clusters := clusters,
      disconnectHooksFired := true, panics := false }

/-- The waiter goroutine installed at cluster admission (tcp.go), same body
with `callClusterDisconnects`: `c.conWG.Done()` panics on a zero counter
before the cluster disconnect hooks run, and both registries are left
untouched in every case. -/
def clusterCloseWaiter (conWG : Nat) (clients clusters : Registry)
    (_provider : ProviderVal) : WaiterResult :=
  if conWG == 0 then
    { clients := clients, clusters := clusters,
      disconnectHooksFired := false, panics := true }
  else
    { clients := clients, clusters := clusters,
      disconnectHooksFired := true, panics := false }

/-- The loop shared by Go `TCPConn.Clients` and `TCPConn.Clusters` (tcp.go):
append `entry.BaseInfo()` for each registry entry, in order.  On a nil
interface entry, `BaseInfo()` is a nil method call, a panic (`none`). -/
def snapshotLoop : Registry → Option (List BaseInfo)
  | [] => some []
  | none :: _ => none
  | some p :: rest =>
    match snapshotLoop rest with
    | none => none
    | some l => some (p.info :: l)

/-- Go `TCPConn.Clients` (tcp.go): snapshot of `BaseInfo` for the clients
registry. -/
def clientsSnapshot (clients : Registry) : Option (List BaseInfo) :=
  snapshotLoop clients

/-- Go `TCPConn.Clusters` (tcp.go): snapshot of `BaseInfo` for the clusters
registry. -/
def clustersSnapshot (clusters : Registry) : Option (List BaseInfo) :=
  snapshotLoop clusters

/-- The loop of Go `TCPConn.SendToClients` (tcp.go): for each registry entry
in order, build the trace (which calls `entry.BaseInfo()`), call
`entry.SendMessage(...)`, log a non-nil error, and continue to the next
entry; the loop has no early exit.  `sendFail p` is whether `SendMessage`
returned a non-nil error for provider `p`.  The result is the ordered list
of delivery attempts with their outcomes, or `none` for the panic on a nil
interface entry. -/
def sendToClientsLoop (sendFail : ProviderVal → Bool) :
    Registry → Option (List (ProviderVal × Bool))
  | [] => some []
  | none :: _ => none
  | some p :: rest =>
    match sendToClientsLoop sendFail rest with
    | none => none
    | some attempts => some ((p, sendFail p) :: attempts)

/-- Go `TCPConn.SendToClients` (tcp.go): run the delivery loop over the
clients registry and return nil. -/
def SendToClients (clients : Registry) (sendFail : ProviderVal → Bool) :
    Option (List (ProviderVal × Bool) × Option String) :=
  match sendToClientsLoop sendFail clients with
  | none => none
  | some attempts => some (attempts, none)

/-- The loop of Go `TCPConn.SendToClusters` (tcp.go), identical in shape to
the clients loop but over the clusters registry. -/
def sendToClustersLoop (sendFail : ProviderVal → Bool) :
    Registry → Option (List (ProviderVal × Bool))
  | [] => some []
  | none :: _ => none
  | some p :: rest =>
    match sendToClustersLoop sendFail rest with
    | none => none
    | some attempts => some ((p, sendFail p) :: attempts)

/-- Go `TCPConn.SendToClusters` (tcp.go): run the delivery loop over the
clusters registry and return nil. -/
def SendToClusters (clusters : Registry) (sendFail : ProviderVal → Bool) :
    Option (List (ProviderVal × Bool) × Option String) :=
  match sendToClustersLoop sendFail clusters with
  | none => none
  | some attempts => some (attempts, none)

/-- A demonstration endpoint record for concrete evaluations. -/
def demoInfo : BaseInfo :=
  { Addr := "10.0.0.1", Port := 4040, ServerID := "s1", Version := "0.0.1",
    GoVersion := "go1.7", IP := "10.0.0.1", MaxPayload := 0 }

/-- A provider that does not implement the `ClientAuth` capability. -/
def demoProvider : ProviderVal :=
  { pid := 1, info := demoInfo, creds := none }

/-- Demonstration credentials, present in the static cluster list of
`cfgAuth`. -/
def demoCred : Credential := { Username := "alice", Password := "secret" }

/-- A provider implementing `ClientAuth` and reporting `demoCred`. -/
def demoAuthProvider : ProviderVal :=
  { pid := 2, info := demoInfo, creds := some demoCred }

/-- A config with authentication disabled. -/
def cfgNoAuth : Config :=
  { ClientCrendentails := [], ClusterCredentials := [], Authenticate := false,
    MustAuthenticate := false, UseTLS := false }

/-- A config with mandatory authentication enabled and `demoCred` in the
static cluster credential list. -/
def cfgAuth : Config :=
  { ClientCrendentails := [], ClusterCredentials := [demoCred],
    Authenticate := true, MustAuthenticate := true, UseTLS := false }

/-- An info record for the `HasAddr` analysis: address "a", port 1. -/
def infoA : BaseInfo := { zeroBaseInfo with Addr := "a", Port := 1 }

/-- Claim C1: after `ServeClients` (respectively `ServeClusters`) returns
nil, `IsRunning()` reports true, and a second call to the same Serve method
is a no-op returning nil without binding a new listener.  The code falsifies
this: neither Serve method ever assigns `true` to its running flag, so from
the fresh state a successful `ServeClients` returns nil while `IsRunning()`
stays false, and a second `ServeClients` call passes the `runningClient`
guard, invokes `net.Listen` again and overwrites the listener handle. -/
theorem claim_C1_serve_never_marks_running :
    (initialTCPConn.ServeClients (Except.ok 1)).returned = none ∧
    (initialTCPConn.ServeClients (Except.ok 1)).state.IsRunning = false ∧
    ((initialTCPConn.ServeClients (Except.ok 1)).state.ServeClients
      (Except.ok 2)).boundListener = true ∧
    ((initialTCPConn.ServeClients (Except.ok 1)).state.ServeClients
      (Except.ok 2)).state.tcpClient = some 2 ∧
    (initialTCPConn.ServeClusters (Except.ok 3)).returned = none ∧
    (initialTCPConn.ServeClusters (Except.ok 3)).state.IsRunning = false ∧
    ((initialTCPConn.ServeClusters (Except.ok 3)).state.ServeClusters
      (Except.ok 4)).boundListener = true := by
  decide

/-- Claim C2: when an admitted provider's close-notify fires, it should be
removed from its class registry — so a later `Clients()`/`Clusters()`
snapshot no longer includes its `BaseInfo` — and the disconnect hooks fire.
The code falsifies both halves: no statement in the waiter removes the
provider from either registry, so the snapshot still lists the closed
provider; and since `conWG.Add` is never called, the waiter's
`c.conWG.Done()` panics on the zero counter (`conWGCount`) before
`callClientDisconnects`/`callClusterDisconnects` runs, so the disconnect
hooks are not even invoked. -/
theorem claim_C2_waiter_never_removes :
    (clientCloseWaiter conWGCount [some demoProvider] [] demoProvider).clients
      = [some demoProvider] ∧
    clientsSnapshot
      (clientCloseWaiter conWGCount [some demoProvider] [] demoProvider).clients
      = some [demoInfo] ∧
    (clientCloseWaiter conWGCount [some demoProvider] []
      demoProvider).panics = true ∧
    (clientCloseWaiter conWGCount [some demoProvider] []
      demoProvider).disconnectHooksFired = false ∧
    (clusterCloseWaiter conWGCount [] [some demoProvider] demoProvider).clusters
      = [some demoProvider] ∧
    clustersSnapshot
      (clusterCloseWaiter conWGCount [] [some demoProvider] demoProvider).clusters
      = some [demoInfo] ∧
    (clusterCloseWaiter conWGCount [] [some demoProvider]
      demoProvider).panics = true ∧
    (clusterCloseWaiter conWGCount [] [some demoProvider]
      demoProvider).disconnectHooksFired = false := by
  decide

/-- Claim C3: when the handler returns an error, the connection is closed
and the loop continues without registering anything for that iteration.  The
code falsifies this: the handler-error branch closes the connection but has
no `continue`, so with authentication disabled the iteration appends the nil
provider to the clients registry, fires the connect hooks and installs a
close-notify waiter (symmetrically in the cluster loop). -/
theorem claim_C3_handler_error_falls_through :
    (clientLoopIteration cfgNoAuth (fun _ => false) [] [] none true).rawConnClosed
      = true ∧
    (clientLoopIteration cfgNoAuth (fun _ => false) [] [] none true).clients
      = [none] ∧
    (clientLoopIteration cfgNoAuth (fun _ => false) [] [] none true).connectHooksFired
      = true ∧
    (clientLoopIteration cfgNoAuth (fun _ => false) [] [] none true).waiterInstalled
      = true ∧
    (clusterLoopIteration cfgNoAuth (fun _ => false) [] [] none true).clusters
      = [none] := by
  decide

/-- Claim C4: a cluster-listener provider admitted through the
static-credential fallback should land in the clusters registry (visible via
`Clusters()`) with the cluster connect hooks invoked.  The code falsifies
this: the fallback branch of `clusterLoop` appends the provider to
`c.clients` and continues, so the clusters registry stays empty, the
`Clusters()` snapshot does not show the provider, and no connect hooks fire
and no close-notify waiter is installed. -/
theorem claim_C4_cluster_fallback_wrong_registry :
    cfgAuth.MatchClusterCredentials demoCred = true ∧
    (clusterLoopIteration cfgAuth (fun _ => false) [] []
      (some demoAuthProvider) false).clusters = [] ∧
    (clusterLoopIteration cfgAuth (fun _ => false) [] []
      (some demoAuthProvider) false).clients = [some demoAuthProvider] ∧
    (clusterLoopIteration cfgAuth (fun _ => false) [] []
      (some demoAuthProvider) false).connectHooksFired = false ∧
    (clusterLoopIteration cfgAuth (fun _ => false) [] []
      (some demoAuthProvider) false).waiterInstalled = false ∧
    clustersSnapshot (clusterLoopIteration cfgAuth (fun _ => false) [] []
      (some demoAuthProvider) false).clusters = some [] := by
  decide

/-- Claim C5: the backoff delay doubles per consecutive temporary error,
never decreases until it reaches the 1s maximum where it stays capped, and
resets to the minimum only after a successful accept.  The code falsifies
this: after the 640ms sleep the doubling overshoots `ACCEPT_MAX_SLEEP` and
the source resets the delay to `ACCEPT_MIN_SLEEP` instead of capping it, so
within an uninterrupted burst of temporary errors the delay drops from 640ms
back to 10ms and never equals the 1000ms maximum. -/
theorem claim_C5_backoff_wraps_to_minimum :
    sleepOnError 0 = ACCEPT_MIN_SLEEP ∧
    sleepOnError 6 = 640 ∧
    sleepOnError 7 = ACCEPT_MIN_SLEEP ∧
    sleepOnError 7 < sleepOnError 6 ∧
    ((List.range 32).all fun k => sleepOnError k != ACCEPT_MAX_SLEEP) = true := by
  decide

/-- Claim C6: with TLS enabled the timer force-closes a connection only if
the handshake has not completed by the deadline, because the success path
clears the deadline before proceeding.  The code falsifies this: `tlsPassed`
is declared and never assigned, and the success path neither clears the read
deadline nor stops the timer, so when the `AfterFunc` callback fires it sees
`tlsPassed` still false and closes the connection even though the handshake
succeeded and a provider is being constructed.  The timeout half does hold:
on handshake failure the connection is closed and the iteration does not
reach provider construction. -/
theorem claim_C6_timer_closes_successful_handshakes :
    (tlsSection true).proceeded = true ∧
    (tlsSection true).tlsPassedFinal = false ∧
    (tlsSection true).deadlineCleared = false ∧
    timerCloses (tlsSection true).tlsPassedFinal = true ∧
    (tlsSection false).proceeded = false ∧
    (tlsSection false).connClosedByLoop = true ∧
    timerCloses (tlsSection false).tlsPassedFinal = true := by
  decide

/-- Claim C7: with authentication enabled and mandatory, a provider returned
by the handler that does not implement the `ClientAuth` capability is sent
the explanatory rejection message, closed, and never inserted into either
registry; no connect hooks fire and no waiter is installed, in both the
client and the cluster loop. -/
theorem claim_C7_mandatory_auth_rejects_no_capability
    (config : Config) (authVerdict : Option Credential → Bool)
    (clients clusters : Registry) (p : ProviderVal) (herr : Bool)
    (hA : config.Authenticate = true) (hM : config.MustAuthenticate = true)
    (hp : p.creds = none) :
    (clientLoopIteration config authVerdict clients clusters (some p)
      herr).rejectionSent = some noAuthMsg ∧
    (clientLoopIteration config authVerdict clients clusters (some p)
      herr).providerClosed = true ∧
    (clientLoopIteration config authVerdict clients clusters (some p)
      herr).clients = clients ∧
    (clientLoopIteration config authVerdict clients clusters (some p)
      herr).clusters = clusters ∧
    (clientLoopIteration config authVerdict clients clusters (some p)
      herr).connectHooksFired = false ∧
    (clientLoopIteration config authVerdict clients clusters (some p)
      herr).waiterInstalled = false ∧
    (clusterLoopIteration config authVerdict clients clusters (some p)
      herr).rejectionSent = some noAuthMsg ∧
    (clusterLoopIteration config authVerdict clients clusters (some p)
      herr).providerClosed = true ∧
    (clusterLoopIteration config authVerdict clients clusters (some p)
      herr).clients = clients ∧
    (clusterLoopIteration config authVerdict clients clusters (some p)
      herr).clusters = clusters ∧
    (clusterLoopIteration config authVerdict clients clusters (some p)
      herr).connectHooksFired = false ∧
    (clusterLoopIteration config authVerdict clients clusters (some p)
      herr).waiterInstalled = false := by
  simp [clientLoopIteration, clusterLoopIteration, hA, hM, hp]

/-- Witness for claim C7 at a concrete configuration and provider. -/
theorem claim_C7_witness :
    (clientLoopIteration cfgAuth (fun _ => false) [] [] (some demoProvider)
      false).rejectionSent = some noAuthMsg ∧
    (clientLoopIteration cfgAuth (fun _ => false) [] [] (some demoProvider)
      false).providerClosed = true ∧
    (clientLoopIteration cfgAuth (fun _ => false) [] [] (some demoProvider)
      false).clients = [] ∧
    (clientLoopIteration cfgAuth (fun _ => false) [] [] (some demoProvider)
      false).clusters = [] ∧
    (clientLoopIteration cfgAuth (fun _ => false) [] [] (some demoProvider)
      false).connectHooksFired = false ∧
    (clientLoopIteration cfgAuth (fun _ => false) [] [] (some demoProvider)
      false).waiterInstalled = false ∧
    (clusterLoopIteration cfgAuth (fun _ => false) [] [] (some demoProvider)
      false).rejectionSent = some noAuthMsg ∧
    (clusterLoopIteration cfgAuth (fun _ => false) [] [] (some demoProvider)
      false).providerClosed = true ∧
    (clusterLoopIteration cfgAuth (fun _ => false) [] [] (some demoProvider)
      false).clients = [] ∧
    (clusterLoopIteration cfgAuth (fun _ => false) [] [] (some demoProvider)
      false).clusters = [] ∧
    (clusterLoopIteration cfgAuth (fun _ => false) [] [] (some demoProvider)
      false).connectHooksFired = false ∧
    (clusterLoopIteration cfgAuth (fun _ => false) [] [] (some demoProvider)
      false).waiterInstalled = false :=
  claim_C7_mandatory_auth_rejects_no_capability cfgAuth (fun _ => false) [] []
    demoProvider false rfl rfl rfl

/-- Helper for claim C8: over a registry of non-nil providers the clients
delivery loop attempts every provider in registry order and records each
outcome. -/
theorem sendToClientsLoop_map_some (sendFail : ProviderVal → Bool) :
    ∀ ps : List ProviderVal,
      sendToClientsLoop sendFail (ps.map some)
        = some (ps.map fun p => (p, sendFail p)) := by
  intro ps
  induction ps with
  | nil => rfl
  | cons p rest ih => simp [sendToClientsLoop, ih]

/-- Helper for claim C8, clusters side. -/
theorem sendToClustersLoop_map_some (sendFail : ProviderVal → Bool) :
    ∀ ps : List ProviderVal,
      sendToClustersLoop sendFail (ps.map some)
        = some (ps.map fun p => (p, sendFail p)) := by
  intro ps
  induction ps with
  | nil => rfl
  | cons p rest ih => simp [sendToClustersLoop, ih]

/-- Claim C8: `SendToClients` and `SendToClusters` call `SendMessage` on
every registered provider of their class in registry order and always return
nil; a `SendMessage` failure for one recipient neither aborts delivery to
the rest nor is propagated.  For any registry of providers and any pattern
of per-recipient failures, the attempt list equals the registry in order,
with the failure recorded per recipient, and the returned error is nil. -/
theorem claim_C8_broadcast_attempts_all_returns_nil
    (ps : List ProviderVal) (sendFail : ProviderVal → Bool) :
    SendToClients (ps.map some) sendFail
      = some (ps.map (fun p => (p, sendFail p)), none) ∧
    SendToClusters (ps.map some) sendFail
      = some (ps.map (fun p => (p, sendFail p)), none) := by
  refine ⟨?_, ?_⟩
  · simp [SendToClients, sendToClientsLoop_map_some]
  · simp [SendToClusters, sendToClustersLoop_map_some]

/-- Claim C9 counterexample: for the single-element list `[infoA]` (address
"a", port 1) and the query `(addr := "a", port := 2)`, no entry matches both
address and port, yet `HasAddr` returns `infoA` — which is neither a
matching entry nor the zero `BaseInfo` — because the source tests
`info.Addr == addr || info.Port == port`.  The final conjunct shows the
second failure mode: for the query `("b", 9)` nothing matches at all and the
function still returns `infoA`, the last element scanned, not the zero
value. -/
theorem claim_C9_counterexample :
    SearchableInfo.HasAddr [infoA] "a" 2 = infoA ∧
    ¬(infoA.Addr = "a" ∧ infoA.Port = 2) ∧
    infoA ≠ zeroBaseInfo ∧
    SearchableInfo.HasAddr [infoA] "b" 9 = infoA := by
  decide

/-- Helper for claim C9: the `HasAddr` scan with accumulator `info` returns
the first element satisfying the address-or-port disjunction, and otherwise
the last element of the list (or `info` itself when the list is empty). -/
theorem hasAddrLoop_eq_find (addr : String) (port : Int) :
    ∀ (s : List BaseInfo) (info : BaseInfo),
      hasAddrLoop info addr port s
        = ((s.find? fun i => i.Addr == addr || i.Port == port).getD
            (s.getLastD info)) := by
  intro s
  induction s with
  | nil => intro info; simp [hasAddrLoop]
  | cons i rest ih =>
    intro info
    by_cases h : (i.Addr == addr || i.Port == port) = true
    · simp [hasAddrLoop, h, List.find?_cons_of_pos _ h]
    · rw [hasAddrLoop, if_neg (by simp [h]), ih i,
        List.find?_cons_of_neg _ (by simp [h]), List.getLastD_cons]

/-- Claim C9 amended: for every `SearchableInfo` list and `(addr, port)`
pair, `HasAddr` returns the first `BaseInfo` whose `Addr` equals `addr` OR
whose `Port` equals `port`; when no entry matches either, it returns the
last entry of the list (the zero `BaseInfo` only when the list is empty). -/
theorem claim_C9_amended_hasAddr
    (s : SearchableInfo) (addr : String) (port : Int) :
    SearchableInfo.HasAddr s addr port
      = ((s.find? fun i => i.Addr == addr || i.Port == port).getD
          (s.getLastD zeroBaseInfo)) :=
  hasAddrLoop_eq_find addr port s zeroBaseInfo

/-- Claim C10: each increment method of the shared `Stat` should increase
the corresponding counter by 1 (respectively n) observably for every sharer.
The code falsifies this: every increment method has a VALUE receiver, so
`atomic.AddInt64` runs on the method's private copy (second component below,
which does get incremented) while the caller's shared `Stat` (first
component) is unchanged by every one of the five methods. -/
theorem claim_C10_value_receiver_discards_increment :
    (valueReceiverCall Stat.IncrementInMsg zeroStat).1.InMsg = 0 ∧
    (valueReceiverCall Stat.IncrementInMsg zeroStat).2.InMsg = 1 ∧
    (valueReceiverCall Stat.IncrementOutMsg zeroStat).1.OutMsg = 0 ∧
    (valueReceiverCall Stat.IncrementOutMsg zeroStat).2.OutMsg = 1 ∧
    (valueReceiverCall Stat.IncrementRequest zeroStat).1.Requests = 0 ∧
    (valueReceiverCall (fun s => s.IncrementWrites 5) zeroStat).1.OutBytes = 0 ∧
    (valueReceiverCall (fun s => s.IncrementWrites 5) zeroStat).2.OutBytes = 5 ∧
    (valueReceiverCall (fun s => s.IncrementReads 7) zeroStat).1.InBytes = 0 ∧
    (valueReceiverCall (fun s => s.IncrementReads 7) zeroStat).2.InBytes = 7 := by
  decide
